import Mathlib

/-!
# BackyardBirdsQA — verification of the wait/poll page-object layer

Shallow embedding of the Appium/Selenium-based page-object helpers in
`pages/base_page.py`, `pages/backyards_page.py` and `pages/birds_page.py`.

Modelling choices:
* The UI under test is observed through snapshots.  A `Snapshot` answers a
  locator query with either the current match set (a list of elements, in
  backend order) or a backend error message (`Except.error`), modelling
  `BackendUnavailable`-style failures of `driver.find_elements`.
* A `Trace` gives the snapshot seen at each successive poll of a
  `WebDriverWait` loop: poll `k` sees `trace k`.  A timeout of `t` seconds
  is abstracted to a budget of `t + 1` condition evaluations (Selenium's
  `until` always evaluates at least once, then once per poll interval until
  the deadline passes).
* Python exceptions are the `PyError` type: `TimeoutException`,
  `IndexError`, and any other backend/WebDriver error.
* State-changing backend calls (`click`, `swipe`) and read-only queries are
  logged as `Command`s so that side-effect claims are statable.
* Locators are opaque (never interpreted locally), so they are modelled as
  bare naturals; the concrete predicate strings of the source are irrelevant
  to every claim.
-/

/-- One UI element as seen by the automation backend: its accessibility
label, on-screen vertical position, and the two state bits the expected
conditions inspect (`is_displayed`, `is_enabled`). -/
structure Element where
  label : String
  y : Int
  visible : Bool
  enabled : Bool
deriving Repr, DecidableEq

/-- An opaque locator (strategy + value pair in the source). -/
abbrev Locator := Nat

/-- One snapshot of the UI tree: a query returns the match set in
backend-defined order, or fails with a backend error message. -/
abbrev Snapshot := Locator → Except String (List Element)

/-- The UI as observed at successive polls of a wait loop. -/
abbrev Trace := Nat → Snapshot

/-- The trace of a UI that does not change while we poll it. -/
def constTrace (s : Snapshot) : Trace := fun _ => s

/-- Python-level exceptions relevant to this layer. -/
inductive PyError where
  | timeout
  | indexError
  | backend (msg : String)
deriving Repr, DecidableEq

/-- Backend commands issued by a method: read-only queries versus
state-changing actions (tap/click, swipe). -/
inductive Command where
  | query (loc : Locator)
  | click (el : Element)
  | swipe (sx sy ex ey : Nat)
deriving Repr, DecidableEq

/-- Whether a command changes UI state (`query` is read-only). -/
def Command.isMutation : Command → Bool
  | .query _ => false
  | .click _ => true
  | .swipe _ _ _ _ => true

/-- The clicks contained in a command log. -/
def clicksOf (log : List Command) : List Command :=
  log.filter Command.isMutation

/-- An `expected_conditions` predicate over the match set of one locator.
`eval` receives the raw query outcome for `loc`; it answers
`.ok (some a)` when the condition is satisfied (with the value `until`
returns), `.ok none` when it is not yet satisfied (including the
`NoSuchElementException` that `until` ignores), and `.error` when the
query itself failed with a backend error. -/
structure ECCondition (α : Type) where
  loc : Locator
  eval : Except String (List Element) → Except String (Option α)

/-- `EC.visibility_of_element_located(locator)`: the first match, provided
it is displayed. -/
def visibilityEC (loc : Locator) : ECCondition Element where
  loc := loc
  eval := fun r =>
    match r with
    | .error m => .error m
    | .ok [] => .ok none
    | .ok (el :: _) => .ok (if el.visible then some el else none)

/-- `EC.element_to_be_clickable(locator)`: the first match, provided it is
displayed and enabled. -/
def clickableEC (loc : Locator) : ECCondition Element where
  loc := loc
  eval := fun r =>
    match r with
    | .error m => .error m
    | .ok [] => .ok none
    | .ok (el :: _) => .ok (if el.visible && el.enabled then some el else none)

/-- `EC.presence_of_element_located(locator)`: the first match, regardless
of visibility. -/
def presenceEC (loc : Locator) : ECCondition Element where
  loc := loc
  eval := fun r =>
    match r with
    | .error m => .error m
    | .ok [] => .ok none
    | .ok (el :: _) => .ok (some el)

/-- `EC.invisibility_of_element_located(locator)`: true once the element is
absent or not displayed. -/
def invisibilityEC (loc : Locator) : ECCondition Bool where
  loc := loc
  eval := fun r =>
    match r with
    | .error m => .error m
    | .ok [] => .ok (some true)
    | .ok (el :: _) => .ok (if el.visible then none else some true)

/-- `WebDriverWait(driver, ..).until(cond)` starting at poll `k` with
`fuel` condition evaluations left.  Returns the satisfying value together
with the poll index at which the condition first held, plus the log of
backend queries issued; exhausting the budget raises `TimeoutException`,
and a backend error inside the condition propagates. -/
def untilFrom (trace : Trace) (c : ECCondition α) :
    Nat → Nat → Except PyError (α × Nat) × List Command
  | _, 0 => (.error .timeout, [])
  | k, fuel + 1 =>
    match c.eval (trace k c.loc) with
    | .error m => (.error (.backend m), [.query c.loc])
    | .ok (some a) => (.ok (a, k), [.query c.loc])
    | .ok none =>
      let rest := untilFrom trace c (k + 1) fuel
      (rest.1, .query c.loc :: rest.2)

/-- `WebDriverWait(driver, timeout).until(cond)`: timeout `t` buys `t + 1`
evaluations, starting immediately. -/
def webDriverWaitUntil (trace : Trace) (timeout : Nat) (c : ECCondition α) :
    Except PyError (α × Nat) × List Command :=
  untilFrom trace c 0 (timeout + 1)

/-- `BasePage.DEFAULT_TIMEOUT`. -/
def DEFAULT_TIMEOUT : Nat := 10

/-- `timeout = timeout or self.DEFAULT_TIMEOUT`: Python `or` replaces both
`None` and the falsy `0` with the default. -/
def orDefault : Option Nat → Nat → Nat
  | none, d => d
  | some t, d => if t = 0 then d else t

/-- `BasePage.wait_for_element`, instrumented with the resolution poll
index and the command log. -/
def wait_for_element_run (trace : Trace) (loc : Locator) (timeout : Option Nat) :
    Except PyError (Element × Nat) × List Command :=
  webDriverWaitUntil trace (orDefault timeout DEFAULT_TIMEOUT) (visibilityEC loc)

/-- `BasePage.wait_for_element(locator, timeout=None)`: wait until the
element is visible and return it; `TimeoutException` otherwise. -/
def wait_for_element (trace : Trace) (loc : Locator) (timeout : Option Nat) :
    Except PyError Element :=
  (wait_for_element_run trace loc timeout).1.map Prod.fst

/-- `BasePage.wait_for_element_clickable`, instrumented. -/
def wait_for_element_clickable_run (trace : Trace) (loc : Locator) (timeout : Option Nat) :
    Except PyError (Element × Nat) × List Command :=
  webDriverWaitUntil trace (orDefault timeout DEFAULT_TIMEOUT) (clickableEC loc)

/-- `BasePage.wait_for_element_clickable(locator, timeout=None)`. -/
def wait_for_element_clickable (trace : Trace) (loc : Locator) (timeout : Option Nat) :
    Except PyError Element :=
  (wait_for_element_clickable_run trace loc timeout).1.map Prod.fst

/-- `BasePage.wait_for_element_invisible(locator, timeout=None)`. -/
def wait_for_element_invisible (trace : Trace) (loc : Locator) (timeout : Option Nat) :
    Except PyError Bool :=
  (webDriverWaitUntil trace (orDefault timeout DEFAULT_TIMEOUT) (invisibilityEC loc)).1.map Prod.fst

/-- `BasePage.is_element_visible`, instrumented: `try: wait_for_element;
return True; except TimeoutException: return False`.  Only the timeout is
caught; other errors propagate. -/
def is_element_visible_run (trace : Trace) (loc : Locator) (timeout : Option Nat) :
    Except PyError Bool × List Command :=
  match wait_for_element_run trace loc timeout with
  | (.ok _, log) => (.ok true, log)
  | (.error .timeout, log) => (.ok false, log)
  | (.error e, log) => (.error e, log)

/-- `BasePage.is_element_visible(locator, timeout=3)` (call sites that use
the default pass `some 3`). -/
def is_element_visible (trace : Trace) (loc : Locator) (timeout : Option Nat) :
    Except PyError Bool :=
  (is_element_visible_run trace loc timeout).1

/-- `BasePage.tap`, instrumented: wait for the element to be clickable,
then `element.click()`. -/
def tap_run (trace : Trace) (loc : Locator) (timeout : Option Nat) :
    Except PyError Unit × List Command :=
  match wait_for_element_clickable_run trace loc timeout with
  | (.ok (el, _), log) => (.ok (), log ++ [.click el])
  | (.error e, log) => (.error e, log)

/-- `driver.find_elements(*locator)`: one immediate query. -/
def find_elements (s : Snapshot) (loc : Locator) : Except PyError (List Element) :=
  match s loc with
  | .error m => .error (.backend m)
  | .ok els => .ok els

/-- `BasePage.get_elements`, instrumented: wait for presence of at least
one match, then re-query the full match set (at the poll where presence
held). -/
def get_elements_run (trace : Trace) (loc : Locator) (timeout : Option Nat) :
    Except PyError (List Element × Nat) × List Command :=
  match webDriverWaitUntil trace (orDefault timeout DEFAULT_TIMEOUT) (presenceEC loc) with
  | (.error e, log) => (.error e, log)
  | (.ok (_, k), log) =>
    match find_elements (trace k) loc with
    | .error e => (.error e, log ++ [.query loc])
    | .ok els => (.ok (els, k), log ++ [.query loc])

/-- `BasePage.get_elements(locator, timeout=None)`. -/
def get_elements (trace : Trace) (loc : Locator) (timeout : Option Nat) :
    Except PyError (List Element) :=
  (get_elements_run trace loc timeout).1.map Prod.fst

/-- `BasePage.get_element_count(locator, timeout=None, wait=True)`:
with `wait=False` a single immediate query; with `wait=True` the size of
`get_elements`, with `TimeoutException` (and only it) converted to 0. -/
def get_element_count (trace : Trace) (loc : Locator) (timeout : Option Nat)
    (wait : Bool) : Except PyError Nat :=
  if !wait then
    (find_elements (trace 0) loc).map List.length
  else
    match get_elements trace loc timeout with
    | .ok els => .ok els.length
    | .error .timeout => .ok 0
    | .error e => .error e

/-! ## BackyardsPage and BirdsPage -/

/-- `BackyardsPage.BACKYARD_CELLS` (opaque predicate locator). -/
def BACKYARD_CELLS : Locator := 0

/-- The StaticText locator built inside `get_backyard_names`. -/
def BACKYARD_NAME_TEXTS : Locator := 1

/-- `BirdsPage.BIRD_NAMES` (opaque predicate locator). -/
def BIRD_NAMES : Locator := 2

/-- `BackyardsPage.get_backyard_cells()`: `get_elements(BACKYARD_CELLS)`. -/
def get_backyard_cells (trace : Trace) : Except PyError (List Element) :=
  get_elements trace BACKYARD_CELLS none

/-- `BackyardsPage.get_backyard_count(wait=True)`:
`get_element_count(BACKYARD_CELLS, wait=wait)` (no explicit timeout). -/
def get_backyard_count (trace : Trace) (wait : Bool) : Except PyError Nat :=
  get_element_count trace BACKYARD_CELLS none wait

/-- The comparison `sort(key=lambda x: x[0])` sorts by: vertical position
of the (y, label) pair. -/
def byY (a b : Int × String) : Prop := a.1 ≤ b.1

instance : DecidableRel byY := fun a b => inferInstanceAs (Decidable (a.1 ≤ b.1))

instance : IsTotal (Int × String) byY := ⟨fun a b => Int.le_total a.1 b.1⟩

instance : IsTrans (Int × String) byY := ⟨fun _ _ _ h h2 => le_trans h h2⟩

/-- `BackyardsPage.get_backyard_names()`: resolve the full match set of
name texts, pair each element's y-position with its label, sort the pairs
by y-position (Python `list.sort` is stable, as is insertion sort, so the
results agree), and return just the labels. -/
def get_backyard_names (trace : Trace) : Except PyError (List String) :=
  match get_elements trace BACKYARD_NAME_TEXTS none with
  | .error e => .error e
  | .ok els =>
    let pairs := els.map (fun el => (el.y, el.label))
    .ok (((pairs.insertionSort byY)).map Prod.snd)

/-- Python list subscription `xs[i]` with negative-index support:
`xs[i]` is `xs[len + i]` for negative `i`, and `IndexError` when the
effective index is outside `[0, len)`. -/
def pyIndex (xs : List α) (i : Int) : Except PyError α :=
  let j : Int := if i < 0 then (xs.length : Int) + i else i
  if 0 ≤ j then
    match xs[j.toNat]? with
    | some a => .ok a
    | none => .error .indexError
  else .error .indexError

/-- `BackyardsPage.tap_backyard_by_index(index)`, instrumented: resolve
the cells; `if index < len(cells): cells[index].click() else: raise
IndexError(...)`.  The guard admits every negative `index`, so the
subscription itself can still raise `IndexError` for a negative index
beyond the front of the list. -/
def tap_backyard_by_index (trace : Trace) (index : Int) :
    Except PyError Unit × List Command :=
  match get_backyard_cells trace with
  | .error e => (.error e, [])
  | .ok cells =>
    if index < (cells.length : Int) then
      match pyIndex cells index with
      | .ok el => (.ok (), [.click el])
      | .error e => (.error e, [])
    else (.error .indexError, [])

/-- The closure `count_matches` of `BackyardsPage.wait_for_backyard_count`:
at each poll, `get_backyard_count(wait=False)` (a bare `find_elements`
length, so backend errors propagate) compared against `expected_count`;
an unequal count means "not yet". -/
def backyardCountEC (expected : Nat) : ECCondition Bool where
  loc := BACKYARD_CELLS
  eval := fun r =>
    match r with
    | .error m => .error m
    | .ok els => .ok (if els.length = expected then some true else none)

/-- `BackyardsPage.wait_for_backyard_count(expected_count, timeout=5)`,
instrumented with the succeeding poll index. -/
def wait_for_backyard_count_run (trace : Trace) (expected : Nat) (timeout : Nat) :
    Except PyError (Bool × Nat) × List Command :=
  webDriverWaitUntil trace timeout (backyardCountEC expected)

/-- `BackyardsPage.wait_for_backyard_count` as the caller sees it. -/
def wait_for_backyard_count (trace : Trace) (expected : Nat) (timeout : Nat) :
    Except PyError Bool :=
  (wait_for_backyard_count_run trace expected timeout).1.map Prod.fst

/-- `BirdsPage.get_bird_names()`: `get_elements(BIRD_NAMES)`. -/
def get_bird_names (trace : Trace) : Except PyError (List Element) :=
  get_elements trace BIRD_NAMES none

/-- `BirdsPage.get_bird_count()`: `try: len(get_bird_names()) except:
return 0` — the bare `except:` catches every exception, not only
`TimeoutException`. -/
def get_bird_count (trace : Trace) : Except PyError Nat :=
  match get_bird_names trace with
  | .ok names => .ok names.length
  | .error _ => .ok 0

/-! ## Scrolling -/

/-- `BasePage.scroll_down()` issues one swipe gesture (from 70% to 30% of
the screen height at mid-width); the coordinates play no role in any
claim. -/
def scroll_down_command (width height : Nat) : Command :=
  .swipe (width / 2) (height * 7 / 10) (width / 2) (height * 3 / 10)

/-- The loop of `BasePage.scroll_to_element`, starting with the UI in the
state reached after `i` scrolls and with `n` loop iterations remaining.
One iteration: `is_element_visible(locator, timeout=2)` against the current
(stable between gestures) UI state; if visible, return
`wait_for_element(locator)`; otherwise `scroll_down()` and continue.
Returns the result together with the number of visibility checks and the
number of scroll gestures performed. -/
def scroll_to_element_go (trace : Trace) (loc : Locator) :
    Nat → Nat → Except PyError Element × Nat × Nat
  | _, 0 => (.error .timeout, 0, 0)
  | i, n + 1 =>
    match is_element_visible (constTrace (trace i)) loc (some 2) with
    | .ok true => (wait_for_element (constTrace (trace i)) loc none, 1, 0)
    | .ok false =>
      let rest := scroll_to_element_go trace loc (i + 1) n
      (rest.1, rest.2.1 + 1, rest.2.2 + 1)
    | .error e => (.error e, 1, 0)

/-- `BasePage.scroll_to_element(locator, max_scrolls=5)`: up to
`max_scrolls` check-then-scroll rounds; `TimeoutException` when every
check failed.  `trace i` is the UI state after `i` scroll gestures. -/
def scroll_to_element (trace : Trace) (loc : Locator) (maxScrolls : Nat) :
    Except PyError Element × Nat × Nat :=
  scroll_to_element_go trace loc 0 maxScrolls

/-! ## Concrete snapshots and traces used to evaluate the development -/

/-- A visible, enabled backyard name element. -/
def elA : Element := ⟨"Bird Springs", 120, true, true⟩

/-- A second element, higher on screen than `elA`. -/
def elB : Element := ⟨"Quiet Haven", 40, true, true⟩

/-- A third element, lower on screen than `elA`. -/
def elC : Element := ⟨"Sunny Patch", 300, true, true⟩

/-- A UI with no matches for any locator. -/
def emptySnap : Snapshot := fun _ => .ok []

/-- A UI where every locator matches the single visible element `elA`. -/
def visSnap : Snapshot := fun _ => .ok [elA]

/-- A backend whose every query fails with a connection error. -/
def errSnap : Snapshot := fun _ => .error "socket closed"

/-- A UI where the element appears only from the fifth poll on. -/
def lateTrace : Trace := fun k => if k < 5 then emptySnap else visSnap

/-- Backyard name texts returned by the backend out of visual order. -/
def namesSnap : Snapshot :=
  fun l => if l = BACKYARD_NAME_TEXTS then .ok [elC, elB, elA] else .ok []

/-- Exactly one backyard cell. -/
def cellsSnap1 : Snapshot :=
  fun l => if l = BACKYARD_CELLS then .ok [elA] else .ok []

/-- Three backyard cells. -/
def bigCellsSnap : Snapshot :=
  fun l => if l = BACKYARD_CELLS then .ok [elA, elB, elC] else .ok []

/-- The backyard count transitions 0, 0, 3 at successive polls. -/
def countTrace : Trace := fun k => if k < 2 then emptySnap else bigCellsSnap

/-- The sought element becomes visible only after two scroll gestures. -/
def scrollTrace : Trace := fun k => if k < 2 then emptySnap else visSnap

/-! ## Lemmas on the polling loop -/

/-- A successful `until` returns the value of the first poll at which the
condition held: every earlier poll in the window evaluated to "not yet". -/
theorem untilFrom_fst_ok {α : Type} (trace : Trace) (c : ECCondition α)
    (fuel : Nat) :
    ∀ (k : Nat) (a : α) (j : Nat),
      (untilFrom trace c k fuel).1 = .ok (a, j) →
      k ≤ j ∧ j < k + fuel ∧ c.eval (trace j c.loc) = .ok (some a) ∧
        ∀ i, k ≤ i → i < j → c.eval (trace i c.loc) = .ok none := by
  induction fuel with
  | zero => intro k a j h; simp [untilFrom] at h
  | succ n ih =>
    intro k a j h
    unfold untilFrom at h
    cases hc : c.eval (trace k c.loc) with
    | error m => rw [hc] at h; simp at h
    | ok o =>
      cases o with
      | some b =>
        rw [hc] at h
        simp only [Prod.fst] at h
        rw [Except.ok.injEq, Prod.mk.injEq] at h
        obtain ⟨hb, hj⟩ := h
        subst hb
        refine ⟨by omega, by omega, ?_, ?_⟩
        · rw [← hj]; exact hc
        · intro i h1 h2; omega
      | none =>
        rw [hc] at h
        simp only [Prod.fst] at h
        obtain ⟨h1, h2, h3, h4⟩ := ih (k + 1) a j h
        refine ⟨by omega, by omega, h3, ?_⟩
        intro i hik hij
        rcases Nat.eq_or_lt_of_le hik with he | hl
        · rw [← he]; exact hc
        · exact h4 i hl hij

/-- If the condition first holds at poll `j` inside the window, `until`
succeeds there with the condition value. -/
theorem untilFrom_fst_complete {α : Type} (trace : Trace) (c : ECCondition α)
    (fuel : Nat) :
    ∀ (k j : Nat) (a : α),
      k ≤ j → j < k + fuel →
      c.eval (trace j c.loc) = .ok (some a) →
      (∀ i, k ≤ i → i < j → c.eval (trace i c.loc) = .ok none) →
      (untilFrom trace c k fuel).1 = .ok (a, j) := by
  induction fuel with
  | zero => intro k j a h1 h2 _ _; omega
  | succ n ih =>
    intro k j a hkj hlt hj hnone
    unfold untilFrom
    rcases Nat.eq_or_lt_of_le hkj with he | hl
    · subst he
      rw [hj]
    · have hk : c.eval (trace k c.loc) = .ok none := hnone k le_rfl hl
      rw [hk]
      simp only [Prod.fst]
      exact ih (k + 1) j a hl (by omega) hj (fun i h1 h2 => hnone i (by omega) h2)

/-- `until` raises `TimeoutException` exactly when every poll in the window
evaluated to "not yet". -/
theorem untilFrom_fst_timeout {α : Type} (trace : Trace) (c : ECCondition α)
    (fuel : Nat) :
    ∀ k, (untilFrom trace c k fuel).1 = .error .timeout ↔
      ∀ i, k ≤ i → i < k + fuel → c.eval (trace i c.loc) = .ok none := by
  induction fuel with
  | zero =>
    intro k
    constructor
    · intro _ i h1 h2; omega
    · intro _; simp [untilFrom]
  | succ n ih =>
    intro k
    unfold untilFrom
    cases hc : c.eval (trace k c.loc) with
    | error m =>
      constructor
      · intro h; simp at h
      · intro h
        have := h k le_rfl (by omega)
        rw [hc] at this
        exact absurd this (by simp)
    | ok o =>
      cases o with
      | some b =>
        constructor
        · intro h; simp at h
        · intro h
          have := h k le_rfl (by omega)
          rw [hc] at this
          exact absurd this (by simp)
      | none =>
        simp only [Prod.fst]
        constructor
        · intro h i h1 h2
          rcases Nat.eq_or_lt_of_le h1 with he | hl
          · rw [← he]; exact hc
          · exact ((ih (k + 1)).mp h) i hl (by omega)
        · intro h
          exact (ih (k + 1)).mpr (fun i h1 h2 => h i (by omega) (by omega))

/-- The polling loop only ever issues read-only queries. -/
theorem untilFrom_log_query {α : Type} (trace : Trace) (c : ECCondition α)
    (fuel : Nat) :
    ∀ k cmd, cmd ∈ (untilFrom trace c k fuel).2 → cmd = .query c.loc := by
  induction fuel with
  | zero => intro k cmd h; simp [untilFrom] at h
  | succ n ih =>
    intro k cmd h
    unfold untilFrom at h
    cases hc : c.eval (trace k c.loc) with
    | error m => rw [hc] at h; simp at h; exact h
    | ok o =>
      cases o with
      | some a => rw [hc] at h; simp at h; exact h
      | none =>
        rw [hc] at h
        simp only [List.mem_cons] at h
        rcases h with h | h
        · exact h
        · exact ih (k + 1) cmd h

/-! ## Shape lemmas for the caller-facing surface -/

/-- Mapping over an `Except` preserves errors exactly. -/
theorem except_map_error_iff {α β : Type} (f : α → β) (x : Except PyError α)
    (e : PyError) : x.map f = .error e ↔ x = .error e := by
  cases x <;> simp [Except.map]

/-- Mapping over an `Except` succeeds exactly on an underlying success. -/
theorem except_map_ok_iff {α β : Type} (f : α → β) (x : Except PyError α)
    (b : β) : x.map f = .ok b ↔ ∃ a, x = .ok a ∧ f a = b := by
  cases x <;> simp [Except.map, eq_comm]

/-- The probe result as a function of the underlying raising wait: success
maps to `true`, `TimeoutException` (and only it) to `false`, every other
error passes through. -/
theorem is_element_visible_run_fst (trace : Trace) (loc : Locator)
    (timeout : Option Nat) :
    is_element_visible trace loc timeout =
      match (wait_for_element_run trace loc timeout).1 with
      | .ok _ => .ok true
      | .error .timeout => .ok false
      | .error .indexError => .error .indexError
      | .error (.backend m) => .error (.backend m) := by
  unfold is_element_visible is_element_visible_run
  rcases hp : wait_for_element_run trace loc timeout with ⟨r, log⟩
  cases r with
  | ok a => rfl
  | error e => cases e <;> rfl

/-- The probe issues exactly the backend commands of the underlying wait. -/
theorem is_element_visible_run_snd (trace : Trace) (loc : Locator)
    (timeout : Option Nat) :
    (is_element_visible_run trace loc timeout).2 =
      (wait_for_element_run trace loc timeout).2 := by
  unfold is_element_visible_run
  rcases hp : wait_for_element_run trace loc timeout with ⟨r, log⟩
  cases r with
  | ok a => rfl
  | error e => cases e <;> rfl

/-- A raising visibility wait issues only read-only queries. -/
theorem wait_for_element_run_log (trace : Trace) (loc : Locator)
    (timeout : Option Nat) :
    ∀ cmd ∈ (wait_for_element_run trace loc timeout).2,
      cmd = .query loc := by
  intro cmd h
  exact untilFrom_log_query trace (visibilityEC loc) _ 0 cmd h

/-- A successful `get_elements` returns a non-empty match set read back at
the poll where presence first held. -/
theorem get_elements_ok_cons (trace : Trace) (loc : Locator)
    (timeout : Option Nat) (els : List Element) :
    get_elements trace loc timeout = .ok els →
    ∃ k el rest, trace k loc = .ok (el :: rest) ∧ els = el :: rest := by
  intro h
  unfold get_elements get_elements_run at h
  rcases hu : webDriverWaitUntil trace (orDefault timeout DEFAULT_TIMEOUT)
      (presenceEC loc) with ⟨r, log⟩
  rw [hu] at h
  cases r with
  | error e => simp [Except.map] at h
  | ok p =>
    rcases p with ⟨a, k⟩
    have hfst : (untilFrom trace (presenceEC loc) 0
        (orDefault timeout DEFAULT_TIMEOUT + 1)).1 = .ok (a, k) := by
      unfold webDriverWaitUntil at hu
      rw [hu]
    obtain ⟨-, -, heval, -⟩ :=
      untilFrom_fst_ok trace (presenceEC loc) _ 0 a k hfst
    cases hq : trace k loc with
    | error m =>
      unfold presenceEC at heval
      rw [hq] at heval
      simp at heval
    | ok l =>
      cases l with
      | nil =>
        unfold presenceEC at heval
        rw [hq] at heval
        simp at heval
      | cons el rest =>
        refine ⟨k, el, rest, hq, ?_⟩
        simp only at h
        rw [show find_elements (trace k) loc = .ok (el :: rest) by
          unfold find_elements; rw [hq]] at h
        simp [Except.map] at h
        exact h.symm

/-- `get_elements` fails exactly when its presence wait or the final
re-query fails; in particular a timeout comes only from the wait. -/
theorem get_elements_error_iff (trace : Trace) (loc : Locator)
    (timeout : Option Nat) (e : PyError) :
    get_elements trace loc timeout = .error e ↔
      (get_elements_run trace loc timeout).1 = .error e := by
  unfold get_elements
  exact except_map_error_iff _ _ e

/-! ## Claims -/

/-- **C1**: the wait surface offers two call shapes: for every locator and
timeout, the raising form `wait_for_element` signals `TimeoutException`
exactly when the non-raising probe `is_element_visible` returns `false`
(which happens exactly when no poll within the timeout window sees the
element visible), and when the element is visible within the timeout the
former returns the element while the latter returns `true`; the probe
never raises on timeout. -/
theorem C1_raising_wait_vs_boolean_probe (trace : Trace) (loc : Locator)
    (timeout : Option Nat) :
    (∀ el, wait_for_element trace loc timeout = .ok el →
        is_element_visible trace loc timeout = .ok true) ∧
    (wait_for_element trace loc timeout = .error .timeout ↔
        is_element_visible trace loc timeout = .ok false) ∧
    (wait_for_element trace loc timeout = .error .timeout ↔
        ∀ i, i < orDefault timeout DEFAULT_TIMEOUT + 1 →
          (visibilityEC loc).eval (trace i loc) = .ok none) := by
  have hfst := is_element_visible_run_fst trace loc timeout
  have hwu : wait_for_element trace loc timeout =
      (wait_for_element_run trace loc timeout).1.map Prod.fst := rfl
  have htk : ((wait_for_element_run trace loc timeout).1 = .error .timeout ↔
      ∀ i, i < orDefault timeout DEFAULT_TIMEOUT + 1 →
        (visibilityEC loc).eval (trace i loc) = .ok none) := by
    have h := untilFrom_fst_timeout trace (visibilityEC loc)
        (orDefault timeout DEFAULT_TIMEOUT + 1) 0
    constructor
    · intro hh i hi
      exact (h.mp hh) i (Nat.zero_le i) (by omega)
    · intro hh
      exact h.mpr (fun i _ h2 => hh i (by omega))
  cases hr : (wait_for_element_run trace loc timeout).1 with
  | ok p =>
    obtain ⟨a, j⟩ := p
    have hv : is_element_visible trace loc timeout = .ok true := by
      rw [hfst, hr]
    refine ⟨fun el _ => hv, ?_, ?_⟩
    · constructor
      · intro h; rw [hwu, hr] at h; simp [Except.map] at h
      · intro h; rw [hv] at h; simp at h
    · constructor
      · intro h; rw [hwu, hr] at h; simp [Except.map] at h
      · intro h
        obtain ⟨-, hlt, heval, -⟩ :=
          untilFrom_fst_ok trace (visibilityEC loc) _ 0 a j hr
        have heval2 : (visibilityEC loc).eval (trace j loc) = .ok (some a) := heval
        rw [h j (by omega)] at heval2
        simp at heval2
  | error e =>
    have hw : wait_for_element trace loc timeout = .error e := by
      rw [hwu, hr]; rfl
    cases e with
    | timeout =>
      have hv : is_element_visible trace loc timeout = .ok false := by
        rw [hfst, hr]
      exact ⟨fun el h => by rw [hw] at h; simp at h,
        ⟨fun _ => hv, fun _ => hw⟩, ⟨fun _ => htk.mp hr, fun _ => hw⟩⟩
    | indexError =>
      have hv : is_element_visible trace loc timeout = .error .indexError := by
        rw [hfst, hr]
      refine ⟨fun el h => by rw [hw] at h; simp at h, ?_, ?_⟩
      · constructor
        · intro h; rw [hw] at h; simp at h
        · intro h; rw [hv] at h; simp at h
      · constructor
        · intro h; rw [hw] at h; simp at h
        · intro h
          have hcontra := htk.mpr h
          rw [hr] at hcontra
          simp at hcontra
    | backend m =>
      have hv : is_element_visible trace loc timeout = .error (.backend m) := by
        rw [hfst, hr]
      refine ⟨fun el h => by rw [hw] at h; simp at h, ?_, ?_⟩
      · constructor
        · intro h; rw [hw] at h; simp at h
        · intro h; rw [hv] at h; simp at h
      · constructor
        · intro h; rw [hw] at h; simp at h
        · intro h
          have hcontra := htk.mpr h
          rw [hr] at hcontra
          simp at hcontra

/-- Witness for C1: on a UI whose element is stably visible, the raising
form returns the element and the probe returns `true`. -/
theorem C1_witness :
    wait_for_element (constTrace visSnap) 0 (some 3) = .ok elA ∧
    is_element_visible (constTrace visSnap) 0 (some 3) = .ok true := by
  refine ⟨rfl, ?_⟩
  exact (C1_raising_wait_vs_boolean_probe (constTrace visSnap) 0 (some 3)).1 elA rfl

/-- **C8**: for every wait operation of BasePage, a zero timeout is
indistinguishable from passing no timeout at all — `timeout or
DEFAULT_TIMEOUT` treats 0 as falsy and substitutes the 10-second default —
and in particular a zero timeout is not an immediate single check: on a UI
whose element appears only at the fifth poll, `timeout=0` still finds it. -/
theorem C8_zero_timeout_falls_back_to_default (trace : Trace) (loc : Locator) :
    wait_for_element trace loc (some 0) = wait_for_element trace loc none ∧
    wait_for_element_clickable trace loc (some 0) =
      wait_for_element_clickable trace loc none ∧
    wait_for_element_invisible trace loc (some 0) =
      wait_for_element_invisible trace loc none ∧
    get_elements trace loc (some 0) = get_elements trace loc none ∧
    orDefault (some 0) DEFAULT_TIMEOUT = 10 ∧
    wait_for_element lateTrace 0 (some 0) = .ok elA :=
  ⟨rfl, rfl, rfl, rfl, rfl, rfl⟩

/-- With `wait=False` the count is one bare query mapped through `len`. -/
theorem get_element_count_nowait (trace : Trace) (loc : Locator)
    (timeout : Option Nat) :
    get_element_count trace loc timeout false =
      (find_elements (trace 0) loc).map List.length := rfl

/-- With `wait=True` the count is the `get_elements` outcome with (only)
`TimeoutException` turned into 0. -/
theorem get_element_count_wait (trace : Trace) (loc : Locator)
    (timeout : Option Nat) :
    get_element_count trace loc timeout true =
      match get_elements trace loc timeout with
      | .ok l => .ok l.length
      | .error .timeout => .ok 0
      | .error e => .error e := rfl

/-- `get_element_count` can never surface a `TimeoutException`. -/
theorem get_element_count_ne_timeout (trace : Trace) (loc : Locator)
    (timeout : Option Nat) (wait : Bool) :
    get_element_count trace loc timeout wait ≠ .error .timeout := by
  cases wait with
  | false =>
    intro h
    rw [get_element_count_nowait, except_map_error_iff] at h
    unfold find_elements at h
    cases hq : trace 0 loc with
    | error m => rw [hq] at h; simp at h
    | ok l => rw [hq] at h; simp at h
  | true =>
    intro h
    rw [get_element_count_wait] at h
    cases hg : get_elements trace loc timeout with
    | ok l => rw [hg] at h; simp at h
    | error e => cases e <;> (rw [hg] at h; simp at h)

/-- **C6**: `get_element_count` always yields a (non-negative) count and
never a timeout failure: with `wait=True` it returns the size of the match
set read at the poll where presence first held (so at least 1), and 0 when
nothing appears within the timeout; with `wait=False` it is a single
immediate query returning the current match-set size. -/
theorem C6_count_is_total (trace : Trace) (loc : Locator)
    (timeout : Option Nat) (wait : Bool) :
    get_element_count trace loc timeout wait ≠ .error .timeout ∧
    get_element_count trace loc timeout false =
      (find_elements (trace 0) loc).map List.length ∧
    (∀ els, get_elements trace loc timeout = .ok els →
        get_element_count trace loc timeout true = .ok els.length ∧
        1 ≤ els.length) ∧
    (get_elements trace loc timeout = .error .timeout →
        get_element_count trace loc timeout true = .ok 0) := by
  refine ⟨get_element_count_ne_timeout trace loc timeout wait,
    get_element_count_nowait trace loc timeout, ?_, ?_⟩
  · intro els hg
    obtain ⟨k, el, rest, -, hcons⟩ :=
      get_elements_ok_cons trace loc timeout els hg
    refine ⟨?_, by rw [hcons]; simp⟩
    rw [get_element_count_wait, hg]
  · intro hg
    rw [get_element_count_wait, hg]

/-- Witness for C6: a stably present element gives count 1; a UI with no
matches gives count 0 without an error. -/
theorem C6_witness :
    get_element_count (constTrace visSnap) 0 none true = .ok 1 ∧
    get_element_count (constTrace emptySnap) 0 (some 2) true = .ok 0 := by
  constructor
  · exact ((C6_count_is_total (constTrace visSnap) 0 none true).2.2.1 [elA] rfl).1
  · exact (C6_count_is_total (constTrace emptySnap) 0 (some 2) true).2.2.2 rfl

/-- **C2** (counterexample): the claim says every non-timeout backend error
raised during a count/read operation is propagated, but
`BirdsPage.get_bird_count` wraps its read in a bare `except:` — on a
backend whose query fails with a connection error it returns 0 instead of
propagating the error. -/
theorem C2_counterexample :
    errSnap BIRD_NAMES = .error "socket closed" ∧
    get_bird_count (constTrace errSnap) = .ok 0 ∧
    get_bird_count (constTrace errSnap) ≠ .error (.backend "socket closed") := by
  refine ⟨rfl, rfl, ?_⟩
  intro h
  have h2 : (Except.ok 0 : Except PyError Nat) =
      .error (.backend "socket closed") := h
  cases h2

/-- **C2** (amended): only the wait-timeout condition is converted by the
base-page layer — `get_element_count` propagates every non-timeout backend
error unmodified in both call shapes and never surfaces a timeout — but
`BirdsPage.get_bird_count` catches all exceptions (bare `except:`) and
returns 0, so it propagates nothing. -/
theorem C2_timeout_only_conversion (trace : Trace) (loc : Locator)
    (timeout : Option Nat) :
    (∀ m, get_elements trace loc timeout = .error (.backend m) →
        get_element_count trace loc timeout true = .error (.backend m)) ∧
    get_element_count trace loc timeout true ≠ .error .timeout ∧
    (∀ m, trace 0 loc = .error m →
        get_element_count trace loc timeout false = .error (.backend m)) ∧
    (∀ e, get_bird_count trace ≠ .error e) := by
  refine ⟨?_, get_element_count_ne_timeout trace loc timeout true, ?_, ?_⟩
  · intro m hg
    rw [get_element_count_wait, hg]
  · intro m hq
    rw [get_element_count_nowait]
    unfold find_elements
    rw [hq]
    rfl
  · intro e h
    unfold get_bird_count at h
    cases hg : get_bird_names trace with
    | ok l => rw [hg] at h; simp at h
    | error e2 => rw [hg] at h; simp at h

/-- Witness for C2 (amended): with a broken backend, `get_element_count`
propagates the connection error in both call shapes. -/
theorem C2_witness :
    get_element_count (constTrace errSnap) 0 none true =
      .error (.backend "socket closed") ∧
    get_element_count (constTrace errSnap) 0 none false =
      .error (.backend "socket closed") := by
  constructor
  · exact (C2_timeout_only_conversion (constTrace errSnap) 0 none).1
      "socket closed" rfl
  · exact (C2_timeout_only_conversion (constTrace errSnap) 0 none).2.2.1
      "socket closed" rfl

/-- A query-only log filters to no clicks. -/
theorem clicksOf_queries_nil (log : List Command) (loc : Locator)
    (h : ∀ cmd ∈ log, cmd = .query loc) : clicksOf log = [] := by
  unfold clicksOf
  rw [List.filter_eq_nil_iff]
  intro a ha
  rw [h a ha]
  simp [Command.isMutation]

/-- **C3**: `tap` first resolves the element under the clickable condition;
on success it issues exactly one click, on the resolved element; on
resolution failure it propagates the error (for a timeout,
`TimeoutException`) having issued zero clicks. -/
theorem C3_tap_clicks_exactly_once (trace : Trace) (loc : Locator)
    (timeout : Option Nat) :
    (∀ el, wait_for_element_clickable trace loc timeout = .ok el →
        (tap_run trace loc timeout).1 = .ok () ∧
        clicksOf (tap_run trace loc timeout).2 = [.click el]) ∧
    (∀ e, wait_for_element_clickable trace loc timeout = .error e →
        (tap_run trace loc timeout).1 = .error e ∧
        clicksOf (tap_run trace loc timeout).2 = []) := by
  have hlogq : ∀ cmd ∈ (wait_for_element_clickable_run trace loc timeout).2,
      cmd = Command.query loc :=
    fun cmd h => untilFrom_log_query trace (clickableEC loc) _ 0 cmd h
  have hwu : wait_for_element_clickable trace loc timeout =
      (wait_for_element_clickable_run trace loc timeout).1.map Prod.fst := rfl
  rcases hp : wait_for_element_clickable_run trace loc timeout with ⟨r, log⟩
  have hlog : ∀ cmd ∈ log, cmd = Command.query loc := by
    intro cmd hc
    exact hlogq cmd (by rw [hp]; exact hc)
  have htap : tap_run trace loc timeout =
      match (r, log) with
      | (.ok (el, _), log) => (.ok (), log ++ [.click el])
      | (.error e, log) => (.error e, log) := by
    unfold tap_run
    rw [hp]
  constructor
  · intro el h
    rw [hwu, hp] at h
    cases r with
    | error e => simp [Except.map] at h
    | ok p =>
      obtain ⟨a, k⟩ := p
      simp [Except.map] at h
      rw [htap]
      subst h
      refine ⟨rfl, ?_⟩
      unfold clicksOf
      rw [List.filter_append]
      rw [show (log.filter Command.isMutation) = [] from
        clicksOf_queries_nil log loc hlog]
      rfl
  · intro e h
    rw [hwu, hp] at h
    cases r with
    | ok p => simp [Except.map] at h
    | error e2 =>
      simp [Except.map] at h
      subst h
      rw [htap]
      exact ⟨rfl, clicksOf_queries_nil log loc hlog⟩

/-- Witness for C3: on a stably clickable element, one click on it; on an
empty UI, a timeout and zero clicks. -/
theorem C3_witness :
    (tap_run (constTrace visSnap) 0 (some 1)).1 = .ok () ∧
    clicksOf (tap_run (constTrace visSnap) 0 (some 1)).2 = [.click elA] ∧
    (tap_run (constTrace emptySnap) 0 (some 1)).1 = .error .timeout ∧
    clicksOf (tap_run (constTrace emptySnap) 0 (some 1)).2 = [] := by
  obtain ⟨h1, h2⟩ :=
    (C3_tap_clicks_exactly_once (constTrace visSnap) 0 (some 1)).1 elA rfl
  obtain ⟨h3, h4⟩ :=
    (C3_tap_clicks_exactly_once (constTrace emptySnap) 0 (some 1)).2
      .timeout rfl
  exact ⟨h1, h2, h3, h4⟩

/-- **C7**: with the UI fixed and the target element stably visible, the
non-raising probe returns `true` (and, being a pure observation of the
trace, returns `true` on every repeated call), and it issues no
state-changing backend command — only read-only queries. -/
theorem C7_probe_idempotent_read_only (s : Snapshot) (loc : Locator)
    (timeout : Option Nat) (el : Element) (rest : List Element)
    (hq : s loc = .ok (el :: rest)) (hvis : el.visible = true) :
    is_element_visible (constTrace s) loc timeout = .ok true ∧
    ∀ cmd ∈ (is_element_visible_run (constTrace s) loc timeout).2,
      cmd.isMutation = false := by
  have heval : (visibilityEC loc).eval (constTrace s 0 loc) = .ok (some el) := by
    show (visibilityEC loc).eval (s loc) = .ok (some el)
    unfold visibilityEC
    rw [hq]
    simp [hvis]
  have hfst : (wait_for_element_run (constTrace s) loc timeout).1 =
      .ok (el, 0) := by
    show (untilFrom (constTrace s) (visibilityEC loc) 0
        (orDefault timeout DEFAULT_TIMEOUT + 1)).1 = .ok (el, 0)
    exact untilFrom_fst_complete (constTrace s) (visibilityEC loc) _ 0 0 el
      le_rfl (by omega) heval (fun i h1 h2 => by omega)
  constructor
  · rw [is_element_visible_run_fst, hfst]
  · intro cmd hc
    rw [is_element_visible_run_snd] at hc
    rw [wait_for_element_run_log (constTrace s) loc timeout cmd hc]
    rfl

/-- Witness for C7: the probe on a stably visible element is `true`. -/
theorem C7_witness :
    is_element_visible (constTrace visSnap) 5 (some 3) = .ok true :=
  (C7_probe_idempotent_read_only visSnap 5 (some 3) elA [] rfl rfl).1

/-- **C4**: `get_backyard_names` resolves the full match set first and
then sorts by y-coordinate before returning: whenever it succeeds, the
returned names are the labels of a permutation of the resolved elements'
(y, label) pairs that is sorted by monotonically non-decreasing vertical
position — regardless of the order the backend returned the elements in. -/
theorem C4_names_sorted_by_y (trace : Trace) (ns : List String)
    (h : get_backyard_names trace = .ok ns) :
    ∃ els, get_elements trace BACKYARD_NAME_TEXTS none = .ok els ∧
      ∃ ps : List (Int × String),
        ps.Perm (els.map (fun el => (el.y, el.label))) ∧
        List.Sorted byY ps ∧
        List.Sorted (fun a b : Int => a ≤ b) (ps.map Prod.fst) ∧
        ns = ps.map Prod.snd := by
  unfold get_backyard_names at h
  cases hg : get_elements trace BACKYARD_NAME_TEXTS none with
  | error e => rw [hg] at h; simp at h
  | ok els =>
    rw [hg] at h
    simp only [Except.ok.injEq] at h
    refine ⟨els, rfl,
      (els.map fun el => (el.y, el.label)).insertionSort byY, ?_, ?_, ?_, ?_⟩
    · exact List.perm_insertionSort byY _
    · exact List.sorted_insertionSort byY _
    · have hs := List.sorted_insertionSort byY
        (els.map fun el => (el.y, el.label))
      unfold List.Sorted at hs ⊢
      exact hs.map Prod.fst (fun a b hab => hab)
    · exact h.symm

/-- Witness for C4: a backend returning name cells out of visual order
still yields the top-to-bottom name list. -/
theorem C4_witness :
    get_backyard_names (constTrace namesSnap) =
      .ok ["Quiet Haven", "Bird Springs", "Sunny Patch"] ∧
    ∃ els, get_elements (constTrace namesSnap) BACKYARD_NAME_TEXTS none =
        .ok els ∧
      ∃ ps : List (Int × String),
        ps.Perm (els.map (fun el => (el.y, el.label))) ∧
        List.Sorted byY ps ∧
        List.Sorted (fun a b : Int => a ≤ b) (ps.map Prod.fst) ∧
        ["Quiet Haven", "Bird Springs", "Sunny Patch"] = ps.map Prod.snd := by
  refine ⟨rfl, ?_⟩
  exact C4_names_sorted_by_y (constTrace namesSnap) _ rfl

/-- **C5**: `wait_for_backyard_count(expected_count)` succeeds exactly at
the first poll whose observed backyard count equals `expected_count`
(returning `True` there), and never succeeds at any earlier poll where the
count differs; conversely, if the count first matches at poll `j` within
the window (and earlier polls observe well-defined, differing counts) then
the wait returns `True` at exactly poll `j`. -/
theorem C5_first_matching_poll (trace : Trace) (expected timeout : Nat) :
    (∀ b j, (wait_for_backyard_count_run trace expected timeout).1 = .ok (b, j) →
        b = true ∧
        (trace j BACKYARD_CELLS).map List.length = .ok expected ∧
        ∀ i, i < j →
          (trace i BACKYARD_CELLS).map List.length ≠ .ok expected) ∧
    (∀ j, j ≤ timeout →
        (trace j BACKYARD_CELLS).map List.length = .ok expected →
        (∀ i, i < j → ∃ c,
            (trace i BACKYARD_CELLS).map List.length = .ok c ∧ c ≠ expected) →
        (wait_for_backyard_count_run trace expected timeout).1 =
          .ok (true, j)) := by
  constructor
  · intro b j h
    have hfst : (untilFrom trace (backyardCountEC expected) 0
        (timeout + 1)).1 = .ok (b, j) := h
    obtain ⟨-, hlt, heval, hpre⟩ :=
      untilFrom_fst_ok trace (backyardCountEC expected) _ 0 b j hfst
    have heval2 : (backyardCountEC expected).eval (trace j BACKYARD_CELLS) =
        .ok (some b) := heval
    cases hq : trace j BACKYARD_CELLS with
    | error m =>
      rw [hq] at heval2
      simp [backyardCountEC] at heval2
    | ok els =>
      rw [hq] at heval2
      simp only [backyardCountEC] at heval2
      by_cases hl : els.length = expected
      · simp [hl] at heval2
        subst heval2
        refine ⟨rfl, by simp [Except.map, hl], ?_⟩
        intro i hij hcontra
        have hei2 : (backyardCountEC expected).eval (trace i BACKYARD_CELLS) =
            .ok none := hpre i (Nat.zero_le i) hij
        cases hqi : trace i BACKYARD_CELLS with
        | error m2 =>
          rw [hqi] at hcontra
          simp [Except.map] at hcontra
        | ok els2 =>
          rw [hqi] at hcontra hei2
          simp [Except.map] at hcontra
          simp [backyardCountEC, hcontra] at hei2
      · simp [hl] at heval2
  · intro j hj hcount hpre
    have heval : (backyardCountEC expected).eval
        (trace j (backyardCountEC expected).loc) = .ok (some true) := by
      show (backyardCountEC expected).eval (trace j BACKYARD_CELLS) =
        .ok (some true)
      cases hq : trace j BACKYARD_CELLS with
      | error m =>
        rw [hq] at hcount
        simp [Except.map] at hcount
      | ok els =>
        rw [hq] at hcount
        simp [Except.map] at hcount
        simp [backyardCountEC, hcount]
    have hnone : ∀ i, 0 ≤ i → i < j →
        (backyardCountEC expected).eval
          (trace i (backyardCountEC expected).loc) = .ok none := by
      intro i _ hij
      obtain ⟨c, hc, hne⟩ := hpre i hij
      show (backyardCountEC expected).eval (trace i BACKYARD_CELLS) = .ok none
      cases hqi : trace i BACKYARD_CELLS with
      | error m =>
        rw [hqi] at hc
        simp [Except.map] at hc
      | ok els2 =>
        rw [hqi] at hc
        simp [Except.map] at hc
        simp [backyardCountEC, hc, hne]
    exact untilFrom_fst_complete trace (backyardCountEC expected)
      (timeout + 1) 0 j true (Nat.zero_le j) (by omega) heval hnone

/-- Witness for C5: with the count transitioning 0, 0, 3 at successive
polls, waiting for count 3 succeeds exactly at the third poll. -/
theorem C5_witness :
    (wait_for_backyard_count_run countTrace 3 5).1 = .ok (true, 2) := by
  apply (C5_first_matching_poll countTrace 3 5).2 2 (by omega) rfl
  intro i hi
  refine ⟨0, ?_, by omega⟩
  interval_cases i <;> rfl

/-- Python subscription either succeeds or raises `IndexError` — no other
outcome. -/
theorem pyIndex_cases (xs : List Element) (i : Int) :
    (∃ el, pyIndex xs i = .ok el) ∨ pyIndex xs i = .error .indexError := by
  simp only [pyIndex]
  by_cases hneg : i < 0
  · rw [if_pos hneg]
    by_cases hj : (0 : Int) ≤ (xs.length : Int) + i
    · rw [if_pos hj]
      cases hg : xs[((xs.length : Int) + i).toNat]? with
      | some a => exact Or.inl ⟨a, rfl⟩
      | none => exact Or.inr rfl
    · rw [if_neg hj]
      exact Or.inr rfl
  · rw [if_neg hneg, if_pos (by omega)]
    cases hg : xs[i.toNat]? with
    | some a => exact Or.inl ⟨a, rfl⟩
    | none => exact Or.inr rfl

/-- Python subscription raises `IndexError` exactly outside
`[-len, len)`. -/
theorem pyIndex_error_iff (xs : List Element) (i : Int) :
    pyIndex xs i = .error .indexError ↔
      ((xs.length : Int) ≤ i ∨ i < -(xs.length : Int)) := by
  simp only [pyIndex]
  by_cases hneg : i < 0
  · rw [if_pos hneg]
    by_cases hj : (0 : Int) ≤ (xs.length : Int) + i
    · rw [if_pos hj]
      have hlt : ((xs.length : Int) + i).toNat < xs.length := by omega
      rw [List.getElem?_eq_getElem hlt]
      constructor
      · intro hcontra
        exact absurd hcontra (by simp)
      · intro hdisj
        exfalso
        rcases hdisj with h1 | h2 <;> omega
    · rw [if_neg hj]
      constructor
      · intro _
        right
        omega
      · intro _
        rfl
  · rw [if_neg hneg, if_pos (by omega)]
    by_cases hge : (xs.length : Int) ≤ i
    · rw [List.getElem?_eq_none (by omega)]
      constructor
      · intro _
        exact Or.inl hge
      · intro _
        rfl
    · have hlt : i.toNat < xs.length := by omega
      rw [List.getElem?_eq_getElem hlt]
      constructor
      · intro hcontra
        exact absurd hcontra (by simp)
      · intro hdisj
        exfalso
        rcases hdisj with h1 | h2 <;> omega

/-- Python subscription at an in-range negative index reads from the back
of the list. -/
theorem pyIndex_ok_of_neg (xs : List Element) (i : Int) (el : Element)
    (hge : -(xs.length : Int) ≤ i) (hneg : i < 0)
    (hget : xs[((xs.length : Int) + i).toNat]? = some el) :
    pyIndex xs i = .ok el := by
  simp only [pyIndex]
  rw [if_pos hneg, if_pos (by omega), hget]

/-- **C9** (counterexample): with exactly one resolved backyard cell,
index -2 passes the guard (-2 < 1) yet the subscription itself raises
`IndexError`, refuting both the claimed equivalence "raises iff
index ≥ count" and "for every negative index it does not raise". -/
theorem C9_counterexample :
    get_backyard_cells (constTrace cellsSnap1) = .ok [elA] ∧
    ¬((-2 : Int) ≥ (1 : Int)) ∧
    (tap_backyard_by_index (constTrace cellsSnap1) (-2)).1 =
      .error .indexError := by
  refine ⟨rfl, by decide, rfl⟩

/-- **C9** (amended): `tap_backyard_by_index(index)` raises `IndexError`
iff `index ≥ count` or `index < -count`; for a negative index within
`[-count, 0)` it clicks the cell counted from the end of the list, so
`index = -1` on a non-empty cell list clicks the last backyard. -/
theorem C9_negative_index_wraps (trace : Trace) (index : Int)
    (cells : List Element) (h : get_backyard_cells trace = .ok cells) :
    ((tap_backyard_by_index trace index).1 = .error .indexError ↔
      ((cells.length : Int) ≤ index ∨ index < -(cells.length : Int))) ∧
    (∀ el, -(cells.length : Int) ≤ index → index < 0 →
        cells[((cells.length : Int) + index).toNat]? = some el →
        tap_backyard_by_index trace index = (.ok (), [.click el])) ∧
    (∀ el, index = -1 → cells.getLast? = some el →
        tap_backyard_by_index trace index = (.ok (), [.click el])) := by
  have ht : tap_backyard_by_index trace index =
      if index < (cells.length : Int) then
        match pyIndex cells index with
        | .ok el => (Except.ok (), [Command.click el])
        | .error e => (.error e, [])
      else (.error .indexError, []) := by
    unfold tap_backyard_by_index
    rw [h]
  refine ⟨?_, ?_, ?_⟩
  · by_cases hlt : index < (cells.length : Int)
    · rw [ht, if_pos hlt]
      rcases pyIndex_cases cells index with ⟨el, hok⟩ | herr
      · rw [hok]
        constructor
        · intro hcontra
          simp at hcontra
        · intro hdisj
          have hcontra := (pyIndex_error_iff cells index).mpr hdisj
          rw [hok] at hcontra
          simp at hcontra
      · rw [herr]
        constructor
        · intro _
          exact (pyIndex_error_iff cells index).mp herr
        · intro _
          rfl
    · rw [ht, if_neg hlt]
      constructor
      · intro _
        left
        omega
      · intro _
        rfl
  · intro el hge hneg hget
    have hok : pyIndex cells index = .ok el :=
      pyIndex_ok_of_neg cells index el hge hneg hget
    have hlt : index < (cells.length : Int) := by omega
    rw [ht, if_pos hlt, hok]
  · intro el hidx hlast
    subst hidx
    have hlen : cells ≠ [] := by
      intro hnil
      rw [hnil] at hlast
      simp at hlast
    have hpos : 1 ≤ cells.length := by
      cases cells with
      | nil => exact absurd rfl hlen
      | cons a l => simp
    have hget : cells[((cells.length : Int) + -1).toNat]? = some el := by
      rw [List.getLast?_eq_getElem?] at hlast
      have htn : ((cells.length : Int) + -1).toNat = cells.length - 1 := by
        omega
      rw [htn]
      exact hlast
    have hok : pyIndex cells (-1) = .ok el :=
      pyIndex_ok_of_neg cells (-1) el (by omega) (by omega) hget
    rw [ht, if_pos (by omega), hok]

/-- Witness for C9 (amended): index -1 on a one-element cell list clicks
that (last) backyard and raises nothing. -/
theorem C9_witness :
    tap_backyard_by_index (constTrace cellsSnap1) (-1) =
      (.ok (), [.click elA]) :=
  (C9_negative_index_wraps (constTrace cellsSnap1) (-1) [elA] rfl).2.2
    elA rfl rfl

/-- Per-round invariant of the scroll loop: check and gesture counts are
bounded by the remaining iterations, gestures never exceed checks, a
success means the last check succeeded with no gesture after it, and if
every check in the window fails the loop times out after exactly `n`
checks and `n` gestures. -/
theorem scroll_go_spec (trace : Trace) (loc : Locator) :
    ∀ n i,
      (scroll_to_element_go trace loc i n).2.1 ≤ n ∧
      (scroll_to_element_go trace loc i n).2.2 ≤ n ∧
      (scroll_to_element_go trace loc i n).2.2 ≤
        (scroll_to_element_go trace loc i n).2.1 ∧
      (∀ el, (scroll_to_element_go trace loc i n).1 = .ok el →
          (scroll_to_element_go trace loc i n).2.2 + 1 =
            (scroll_to_element_go trace loc i n).2.1) ∧
      ((∀ d, d < n →
          is_element_visible (constTrace (trace (i + d))) loc (some 2) =
            .ok false) →
        scroll_to_element_go trace loc i n = (.error .timeout, n, n)) := by
  intro n
  induction n with
  | zero =>
    intro i
    refine ⟨le_rfl, le_rfl, le_rfl, ?_, ?_⟩
    · intro el h
      simp [scroll_to_element_go] at h
    · intro _
      rfl
  | succ m ih =>
    intro i
    have hgo : scroll_to_element_go trace loc i (m + 1) =
        match is_element_visible (constTrace (trace i)) loc (some 2) with
        | .ok true =>
          (wait_for_element (constTrace (trace i)) loc none, 1, 0)
        | .ok false =>
          ((scroll_to_element_go trace loc (i + 1) m).1,
           (scroll_to_element_go trace loc (i + 1) m).2.1 + 1,
           (scroll_to_element_go trace loc (i + 1) m).2.2 + 1)
        | .error e => (.error e, 1, 0) := by
      simp only [scroll_to_element_go]
    cases hv : is_element_visible (constTrace (trace i)) loc (some 2) with
    | ok b =>
      cases b with
      | true =>
        have hstep : scroll_to_element_go trace loc i (m + 1) =
            (wait_for_element (constTrace (trace i)) loc none, 1, 0) := by
          rw [hgo, hv]
        rw [hstep]
        refine ⟨?_, ?_, ?_, fun el _ => rfl, ?_⟩
        · show (1 : Nat) ≤ m + 1
          omega
        · show (0 : Nat) ≤ m + 1
          omega
        · show (0 : Nat) ≤ (1 : Nat)
          omega
        · intro hall
          have hc := hall 0 (by omega)
          rw [Nat.add_zero] at hc
          rw [hv] at hc
          simp at hc
      | false =>
        have hstep : scroll_to_element_go trace loc i (m + 1) =
            ((scroll_to_element_go trace loc (i + 1) m).1,
             (scroll_to_element_go trace loc (i + 1) m).2.1 + 1,
             (scroll_to_element_go trace loc (i + 1) m).2.2 + 1) := by
          rw [hgo, hv]
        obtain ⟨h1, h2, h3, h4, h5⟩ := ih (i + 1)
        rw [hstep]
        refine ⟨?_, ?_, ?_, ?_, ?_⟩
        · show (scroll_to_element_go trace loc (i + 1) m).2.1 + 1 ≤ m + 1
          omega
        · show (scroll_to_element_go trace loc (i + 1) m).2.2 + 1 ≤ m + 1
          omega
        · show (scroll_to_element_go trace loc (i + 1) m).2.2 + 1 ≤
            (scroll_to_element_go trace loc (i + 1) m).2.1 + 1
          omega
        · intro el h
          have h6 : (scroll_to_element_go trace loc (i + 1) m).1 = .ok el := h
          have h7 := h4 el h6
          show (scroll_to_element_go trace loc (i + 1) m).2.2 + 1 + 1 =
            (scroll_to_element_go trace loc (i + 1) m).2.1 + 1
          omega
        · intro hall
          have hrec := h5 (fun d hd => by
            have hh := hall (d + 1) (by omega)
            rw [show i + (d + 1) = i + 1 + d from by omega] at hh
            exact hh)
          show ((scroll_to_element_go trace loc (i + 1) m).1,
              (scroll_to_element_go trace loc (i + 1) m).2.1 + 1,
              (scroll_to_element_go trace loc (i + 1) m).2.2 + 1) =
            (.error .timeout, m + 1, m + 1)
          rw [hrec]
    | error e =>
      have hstep : scroll_to_element_go trace loc i (m + 1) =
          (.error e, 1, 0) := by
        rw [hgo, hv]
      rw [hstep]
      refine ⟨?_, ?_, ?_, ?_, ?_⟩
      · show (1 : Nat) ≤ m + 1
        omega
      · show (0 : Nat) ≤ m + 1
        omega
      · show (0 : Nat) ≤ (1 : Nat)
        omega
      · intro el h
        simp at h
      · intro hall
        have hc := hall 0 (by omega)
        rw [Nat.add_zero] at hc
        rw [hv] at hc
        simp at hc

/-- **C10**: `scroll_to_element(locator, max_scrolls)` always terminates
(it is a total function of a bounded loop): it performs at most
`max_scrolls` visibility checks and at most `max_scrolls` scroll-down
gestures; on success the final check succeeded and no further gesture
follows it (gestures = checks - 1); and when no check within the window
finds the element visible it raises `TimeoutException` after exactly
`max_scrolls` checks and `max_scrolls` gestures. -/
theorem C10_scroll_bounded (trace : Trace) (loc : Locator)
    (maxScrolls : Nat) :
    (scroll_to_element trace loc maxScrolls).2.1 ≤ maxScrolls ∧
    (scroll_to_element trace loc maxScrolls).2.2 ≤ maxScrolls ∧
    (scroll_to_element trace loc maxScrolls).2.2 ≤
      (scroll_to_element trace loc maxScrolls).2.1 ∧
    (∀ el, (scroll_to_element trace loc maxScrolls).1 = .ok el →
        (scroll_to_element trace loc maxScrolls).2.2 + 1 =
          (scroll_to_element trace loc maxScrolls).2.1) ∧
    ((∀ d, d < maxScrolls →
        is_element_visible (constTrace (trace d)) loc (some 2) = .ok false) →
      scroll_to_element trace loc maxScrolls =
        (.error .timeout, maxScrolls, maxScrolls)) := by
  obtain ⟨h1, h2, h3, h4, h5⟩ := scroll_go_spec trace loc maxScrolls 0
  refine ⟨h1, h2, h3, h4, ?_⟩
  intro hall
  exact h5 (fun d hd => by rw [Nat.zero_add]; exact hall d hd)

/-- Witness for C10: the element becomes visible after two scrolls, so the
loop returns it with three checks and two gestures; the unsatisfied-UI
bound is exercised by the timeout clause at an always-empty trace. -/
theorem C10_witness :
    scroll_to_element scrollTrace 0 5 = (.ok elA, 3, 2) ∧
    (scroll_to_element scrollTrace 0 5).2.2 + 1 =
      (scroll_to_element scrollTrace 0 5).2.1 := by
  refine ⟨rfl, ?_⟩
  exact (C10_scroll_bounded scrollTrace 0 5).2.2.2.1 elA rfl
